import Mathlib

/-
Verification development for the single-file program `claude-quickstart.py`.

The program is a command-line question/answer tool: it looks a question up in
a JSON-backed cache, otherwise issues a remote generation call, prints the
answer, and maintains running output-token statistics in a second JSON file.

Shallow embedding notes:
- JSON values are modelled by the inductive `Json`, which distinguishes
  integer and floating-point numbers the way Python's `json` module does
  (dumping an `int` produces a bare integer literal, loading it back gives an
  `int`; floats keep a decimal point).  Numeric values are carried as exact
  rationals: the program's arithmetic (sums of ints, one division per update)
  is modelled exactly rather than in IEEE binary64.
- A file on disk is a `FileState`: absent, unreadable (OSError on open/read),
  malformed (JSONDecodeError), or readable content that parses to a `Json`
  value.  The `json` codec itself is standard-library code, not part of the
  repository, and is modelled as value-faithful: writing a value and parsing
  the file back yields the same parsed value.
- Whether a write succeeds is an external fact (disk full, permissions), so
  the save operations take an explicit `writeOk : Bool` oracle together with
  the previous file state, returning the Python function's boolean result and
  the new file state.
- Python raises `TypeError` for `key in x` / `x[key]` on non-container
  values, and such exceptions escape the program's `try` blocks; functions
  whose Python original can raise an uncaught exception return `Option`, with
  `none` for the crash.
- Python's `bool` is a subclass of `int`, so `isinstance(b, int)` is true for
  booleans; `pyIsInt` mirrors that.  `isinstance` of a float accepts only
  floats.
- Python's true division raises `ZeroDivisionError`; `update_output_tokens`
  divides by the incremented sample count, which is zero exactly when the
  loaded sample count was `-1` (a state `_validate` accepts from a
  hand-crafted file, though the program never writes one).  That exception,
  too, is uncaught, so the update is partial, and a run that dies from any
  uncaught exception is collapsed to `none` — effects already performed
  before the crash are not reported in a `DriverResult`.
-/

/-- A parsed JSON value (equivalently, the Python value `json.load` returns). -/
inductive Json where
  | jnull
  | jbool (b : Bool)
  | jint (n : Int)
  | jfloat (q : ℚ)
  | jstr (s : String)
  | jarr (elems : List Json)
  | jobj (kvs : List (String × Json))

/-- A Python number as stored in the cost dictionary: either an `int` or a
`float`.  The distinction matters because `CostData._validate` checks the
Python type of each field with `isinstance`. -/
inductive PyNum where
  | int (n : Int)
  | float (q : ℚ)

/-- Numeric value of a Python number (Python `==` compares `int` and `float`
numerically). -/
def PyNum.toRat : PyNum → ℚ
  | .int n => (n : ℚ)
  | .float q => q

/-- What `json.dump` writes for a Python number. -/
def pyNumToJson : PyNum → Json
  | .int n => Json.jint n
  | .float q => Json.jfloat q

/-- State of one file on disk, as seen by a load operation. -/
inductive FileState where
  | absent
  | unreadable
  | malformed
  | content (j : Json)

-- Association-list primitives mirroring Python dict operations
-- (parsed JSON objects have unique keys, and insertion preserves position).

def dictLookup (kvs : List (String × Json)) (key : String) : Option Json :=
  match kvs with
  | [] => none
  | kv :: rest => if kv.1 == key then some kv.2 else dictLookup rest key

def dictInsert (kvs : List (String × Json)) (key : String) (v : Json) :
    List (String × Json) :=
  match kvs with
  | [] => [(key, v)]
  | kv :: rest =>
    if kv.1 == key then (key, v) :: rest else kv :: dictInsert rest key v

-- Character-list matching used to model Python substring membership
-- (`needle in haystack` for strings).

def leadMatch : List Char → List Char → Bool
  | [], _ => true
  | _ :: _, [] => false
  | a :: as, b :: bs => a == b && leadMatch as bs

def hasSeg (needle : List Char) : List Char → Bool
  | [] => needle.isEmpty
  | c :: rest => leadMatch needle (c :: rest) || hasSeg needle rest

/-- Python `key in container`: key membership for a dict, element equality
for a list, substring test for a string; `TypeError` (modelled `none`) for
any other value. -/
def pyContains (container : Json) (key : String) : Option Bool :=
  match container with
  | .jobj kvs => some (dictLookup kvs key).isSome
  | .jarr xs =>
      some (xs.any fun x => match x with | .jstr s => s == key | _ => false)
  | .jstr s => some (hasSeg key.toList s.toList)
  | _ => none

/-- Python `container[key]` with a string key: dict lookup (`KeyError` and
`TypeError` both modelled `none`). -/
def pyGetItem (container : Json) (key : String) : Option Json :=
  match container with
  | .jobj kvs => dictLookup kvs key
  | _ => none

/-- Python `container[key] = v` with a string key: dict item assignment;
`TypeError` (modelled `none`) on any non-dict value. -/
def pySetItem (container : Json) (key : String) (v : Json) : Option Json :=
  match container with
  | .jobj kvs => some (Json.jobj (dictInsert kvs key v))
  | _ => none

/-- `isinstance(v, int)` on a parsed JSON value; Python's `bool` is a
subclass of `int`. -/
def pyIsInt : Json → Bool
  | .jint _ => true
  | .jbool _ => true
  | _ => false

/-- `isinstance(v, float)` on a parsed JSON value. -/
def pyIsFloat : Json → Bool
  | .jfloat _ => true
  | _ => false

/-- Python `int(...)`-valued reading of a value that passed `pyIsInt`
(`True` counts as 1, `False` as 0 in arithmetic). -/
def jsonToInt : Json → Option Int
  | .jint n => some n
  | .jbool b => some (if b then 1 else 0)
  | _ => none

-- Answer cache (`load_answer_question_pair_data` and friends).

/-- `load_answer_question_pair_data`: returns `{}` when the file is absent,
unreadable or malformed, otherwise whatever `json.load` produced (the source
performs no validation of the cache file's shape). -/
def load_answer_question_pair_data (fs : FileState) : Json :=
  match fs with
  | .absent => Json.jobj []
  | .unreadable => Json.jobj []
  | .malformed => Json.jobj []
  | .content j => j

/-- `archive_answer_question_pair`: inserts the pair into the dictionary and
returns `True`; `none` models the uncaught `TypeError` when the loaded cache
value is not a dict. -/
def archive_answer_question_pair (question answer : String) (pairs : Json) :
    Option (Bool × Json) :=
  (pySetItem pairs question (Json.jstr answer)).map fun p => (true, p)

/-- `save_answer_question_pair_data`: dumps the dictionary to the cache file,
returning `True` on success; on an `OSError` returns `False` with the file
left as it was. -/
def save_answer_question_pair_data (pairs : Json) (writeOk : Bool)
    (fs : FileState) : Bool × FileState :=
  if writeOk then (true, FileState.content pairs) else (false, fs)

/-- Encoding of a string-to-string mapping as the JSON object `json.dump`
writes for it. -/
def encodeStrMap (m : List (String × String)) : Json :=
  Json.jobj (m.map fun p => (p.1, Json.jstr p.2))

-- Cost tracker (`CostData`).

/-- In-memory cost dictionary when non-empty: the three fields of
`cost_data.json`.  The average is a `PyNum` because the first update stores
the Python `int` sample while later updates store the `float` quotient. -/
structure CostRecord where
  total_output_tokens_count : Int
  output_tokens_sample_count : Int
  output_tokens_average : PyNum

/-- `CostData.KEYS`: expected fields and their `isinstance` checks. -/
def CostData.KEYS : List (String × (Json → Bool)) :=
  [("total_output_tokens_count", pyIsInt),
   ("output_tokens_sample_count", pyIsInt),
   ("output_tokens_average", pyIsFloat)]

/-- The loop body of `CostData._validate` for one key: present and of the
expected Python type. -/
def CostData.checkKey (kvs : List (String × Json)) (key : String)
    (expected : Json → Bool) : Bool :=
  match dictLookup kvs key with
  | none => false
  | some v => expected v

/-- `CostData._validate` on a parsed JSON object. -/
def CostData.validKVs (kvs : List (String × Json)) : Bool :=
  CostData.KEYS.all fun spec => CostData.checkKey kvs spec.1 spec.2

/-- `CostData._validate` on an arbitrary parsed value.  For a non-dict the
loop's `key not in data` either raises `TypeError` at once (numbers,
booleans, null) or, when the membership test succeeds, `data[key]` raises
`TypeError` (lists, strings); `none` models the uncaught exception, which
escapes `_load`'s `except (json.JSONDecodeError, OSError)` clause. -/
def CostData._validate (data : Json) : Option Bool :=
  match data with
  | .jobj kvs => some (CostData.validKVs kvs)
  | .jarr xs =>
      if xs.any (fun x =>
          match x with
          | .jstr s => s == "total_output_tokens_count"
          | _ => false) then
        none
      else some false
  | .jstr s =>
      if hasSeg "total_output_tokens_count".toList s.toList then none
      else some false
  | _ => none

/-- Reading of a validated cost dictionary into a `CostRecord`. -/
def CostData.extract (kvs : List (String × Json)) : Option CostRecord :=
  match jsonToInt ((dictLookup kvs "total_output_tokens_count").getD Json.jnull),
        jsonToInt ((dictLookup kvs "output_tokens_sample_count").getD Json.jnull),
        (dictLookup kvs "output_tokens_average").getD Json.jnull with
  | some t, some s, Json.jfloat q => some ⟨t, s, PyNum.float q⟩
  | _, _, _ => none

/-- `CostData._load`: `some none` is "returns `{}`", `some (some r)` is
"returns the validated record", `none` is an uncaught exception (only
reachable when the file parses to a non-container JSON value, or to a
list/string on which the first membership test succeeds). -/
def CostData._load (fs : FileState) : Option (Option CostRecord) :=
  match fs with
  | .absent => some none
  | .unreadable => some none
  | .malformed => some none
  | .content data =>
    match CostData._validate data with
    | none => none
    | some false => some none
    | some true =>
      match data with
      | .jobj kvs => some (CostData.extract kvs)
      | _ => some none

/-- What `json.dump(self.data, ...)` writes for the in-memory cost data. -/
def CostData.toJson (data : Option CostRecord) : Json :=
  match data with
  | none => Json.jobj []
  | some r =>
    Json.jobj
      [("total_output_tokens_count", Json.jint r.total_output_tokens_count),
       ("output_tokens_sample_count", Json.jint r.output_tokens_sample_count),
       ("output_tokens_average", pyNumToJson r.output_tokens_average)]

/-- `CostData.save`: dumps the data, returning `True` on success; on an
`OSError` returns `False` with the file left as it was. -/
def CostData.save (data : Option CostRecord) (writeOk : Bool)
    (fs : FileState) : Bool × FileState :=
  if writeOk then (true, FileState.content (CostData.toJson data))
  else (false, fs)

/-- `CostData.update_output_tokens`.  On the first sample the average is
stored as the Python `int` sample itself; afterwards as the true-division
`float` quotient.  The outer `Option` is `none` for the uncaught
`ZeroDivisionError` Python raises when the incremented sample count is zero
(stored sample count `-1`, which `_validate` accepts from a hand-crafted
file); the process dies there before `self.data` is observed again, so the
partial mutation Python performs before the failing division is not
represented.  The inner value is the new `self.data`, never `{}`. -/
def CostData.update_output_tokens (data : Option CostRecord)
    (output_tokens_count : Int) : Option (Option CostRecord) :=
  match data with
  | none =>
    some (some ⟨output_tokens_count, 1, PyNum.int output_tokens_count⟩)
  | some r =>
    if r.output_tokens_sample_count + 1 = 0 then none
    else
      some (some
        ⟨r.total_output_tokens_count + output_tokens_count,
         r.output_tokens_sample_count + 1,
         PyNum.float
           (((r.total_output_tokens_count + output_tokens_count : Int) : ℚ) /
            ((r.output_tokens_sample_count + 1 : Int) : ℚ))⟩)

/-- `self.data.get("output_tokens_average")`: `None` on the empty dict. -/
def CostData.get_output_tokens_average : Option CostRecord → Option PyNum
  | none => none
  | some r => some r.output_tokens_average

/-- One step of iterating the update, propagating a crash. -/
def CostData.updateStep (acc : Option (Option CostRecord)) (t : Int) :
    Option (Option CostRecord) :=
  match acc with
  | none => none
  | some data => CostData.update_output_tokens data t

/-- Iterated update starting from the empty state (`none` = some step
raised). -/
def CostData.updateSeq (ts : List Int) : Option (Option CostRecord) :=
  ts.foldl CostData.updateStep (some none)

-- Model Gateway pricing and cost estimation.

def CLAUDE_3_5_SONNET_PRICE_DOLLARS_INPUT_PER_MILLION_OF_TOKENS : ℚ := 3

def CLAUDE_3_5_SONNET_PRICE_DOLLARS_OUTPUT_PER_MILLION_OF_TOKENS : ℚ := 15

def get_anthropic_input_tokens_cost (input_tokens_count : Int) : ℚ :=
  (input_tokens_count : ℚ) *
    CLAUDE_3_5_SONNET_PRICE_DOLLARS_INPUT_PER_MILLION_OF_TOKENS / 1000000

def get_anthropic_output_tokens_cost (output_tokens_count : ℚ) : ℚ :=
  output_tokens_count *
    CLAUDE_3_5_SONNET_PRICE_DOLLARS_OUTPUT_PER_MILLION_OF_TOKENS / 1000000

/-- `log_anthropic_cost`.  The token-count estimation call is external; its
outcome is the oracle `est` (`none` = the call raised, `some k` = it returned
`input_tokens = k`).  On failure the function logs a warning and returns
`None`; on success it returns the summed estimate, substituting the input
token count for the output-token average when no average exists yet. -/
def log_anthropic_cost (est : Option Int) (output_tokens_average : Option ℚ) :
    Option ℚ :=
  match est with
  | none => none
  | some input_tokens =>
    let input_cost := get_anthropic_input_tokens_cost input_tokens
    let avg : ℚ :=
      match output_tokens_average with
      | none => (input_tokens : ℚ)
      | some a => a
    let estimated_output_cost := get_anthropic_output_tokens_cost avg
    some (input_cost + estimated_output_cost)

-- Interactive driver (`main`).

/-- The two kinds of remote API calls the program can issue. -/
inductive RemoteCall where
  | countTokens
  | generate

/-- Observable outcome of one driver run: lines printed to standard output
(fixed strings as `jstr`), the final state of the two files, the remote
calls issued in order, whether the cache save was attempted, and whether the
"Unable to archive" warning branch was taken. -/
structure DriverResult where
  stdout : List Json
  fsCache : FileState
  fsCost : FileState
  remoteCalls : List RemoteCall
  cacheSaveAttempted : Bool
  archiveWarned : Bool

/-- The fixed apology printed when the generation call fails. -/
def apology : String :=
  "I\x27m sorry, I can\x27t answer your question right now"

/-- The source's `main`, from after the question-input loop (the loop only re-prompts
until the stripped input is non-empty; `question` is that accepted string).
External effects are oracles: `est` is the token-count estimation outcome,
`gen` the generation outcome (`none` = the call raised, `some (text, n)` =
answer text and reported output-token count), `cacheWriteOk`/`costWriteOk`
whether each file write would succeed.  The overall result is `none` when an
unanticipated exception escapes (non-dict JSON in a file where a dict
operation is performed), mirroring the unguarded process crash.  (Named `mainRun` because Lean
reserves `main` for an executable entry point.) -/
def mainRun (question : String) (est : Option Int) (gen : Option (String × Int))
    (cacheWriteOk costWriteOk : Bool) (fsCache fsCost : FileState) :
    Option DriverResult :=
  match CostData._load fsCost with
  | none => none
  | some costData =>
    match pyContains (load_answer_question_pair_data fsCache) question with
    | none => none
    | some true =>
      match pyGetItem (load_answer_question_pair_data fsCache) question with
      | none => none
      | some answer =>
        some ⟨[Json.jstr "I think I remember ...", answer],
              fsCache, fsCost, [], false, false⟩
    | some false =>
      -- The estimate is logged only; its failure is non-fatal and its value
      -- influences nothing below.
      let _estimated := log_anthropic_cost est
        ((CostData.get_output_tokens_average costData).map PyNum.toRat)
      match gen with
      | none =>
        some ⟨[Json.jstr apology], fsCache, fsCost,
              [RemoteCall.countTokens, RemoteCall.generate], false, false⟩
      | some (text, output_tokens_count) =>
        match archive_answer_question_pair question text
            (load_answer_question_pair_data fsCache) with
        | none => none
        | some (archived, newPairs) =>
          -- The answer was already printed and the cache save already
          -- attempted; if the update raises, the process dies before the
          -- cost save, and the whole run collapses to `none`.
          match CostData.update_output_tokens costData output_tokens_count with
          | none => none
          | some newData =>
            some ⟨[Json.jstr text],
                  (if archived then
                    (save_answer_question_pair_data newPairs cacheWriteOk
                      fsCache).2
                   else fsCache),
                  (CostData.save newData costWriteOk fsCost).2,
                  [RemoteCall.countTokens, RemoteCall.generate],
                  archived, !archived⟩

-- Helper lemma: closed form of iterating `update_output_tokens` from a
-- non-empty record whose sample count is non-negative (so that no step
-- divides by zero).

lemma CostData.foldl_update_closed (ts : List Int) (r : CostRecord)
    (h : ts ≠ []) (hpos : 0 ≤ r.output_tokens_sample_count) :
    List.foldl CostData.updateStep (some (some r)) ts =
      some (some
        ⟨r.total_output_tokens_count + ts.sum,
         r.output_tokens_sample_count + (ts.length : Int),
         PyNum.float
           (((r.total_output_tokens_count + ts.sum : Int) : ℚ) /
            ((r.output_tokens_sample_count + (ts.length : Int) : Int) : ℚ))⟩) := by
  induction ts generalizing r with
  | nil => exact absurd rfl h
  | cons a tail ih =>
    have step : CostData.updateStep (some (some r)) a =
        some (some
          ⟨r.total_output_tokens_count + a,
           r.output_tokens_sample_count + 1,
           PyNum.float
             (((r.total_output_tokens_count + a : Int) : ℚ) /
              ((r.output_tokens_sample_count + 1 : Int) : ℚ))⟩) := by
      show CostData.update_output_tokens (some r) a = _
      simp only [CostData.update_output_tokens]
      rw [if_neg (by omega : ¬(r.output_tokens_sample_count + 1 = 0))]
    cases tail with
    | nil =>
      rw [List.foldl_cons, List.foldl_nil, step]
      simp only [List.sum_cons, List.sum_nil, List.length_cons,
        List.length_nil, Option.some.injEq, CostRecord.mk.injEq]
      refine ⟨by ring, by push_cast; ring, ?_⟩
      congr 1
      push_cast
      ring
    | cons b tail2 =>
      rw [List.foldl_cons, step, ih _ (by simp) (by simp; omega)]
      simp only [List.sum_cons, List.length_cons, Option.some.injEq,
        CostRecord.mk.injEq]
      refine ⟨by ring, by push_cast; ring, ?_⟩
      congr 1
      push_cast
      ring

/-- Claim C1: updating an empty cost state with output-token values
`t1..tn` (`n ≥ 1`) yields a record with total `= sum ti`, sample count
`= n`, and average numerically equal to `total / n`; in particular the
first update sets `total = t1`, `samples = 1`, `average = t1` (stored as
the integer sample itself). -/
theorem claim1_update_law (ts : List Int) (h : ts ≠ []) :
    ∃ r, CostData.updateSeq ts = some (some r) ∧
      r.total_output_tokens_count = ts.sum ∧
      r.output_tokens_sample_count = (ts.length : Int) ∧
      r.output_tokens_average.toRat = (ts.sum : ℚ) / (ts.length : ℚ) ∧
      (∀ t : Int,
        CostData.update_output_tokens none t =
          some (some ⟨t, 1, PyNum.int t⟩)) := by
  obtain ⟨a, ts', rfl⟩ := List.exists_cons_of_ne_nil h
  cases ts' with
  | nil =>
    refine ⟨⟨a, 1, PyNum.int a⟩, rfl, by simp, by simp, ?_, fun t => rfl⟩
    simp [PyNum.toRat]
  | cons b tail =>
    have hfold := CostData.foldl_update_closed (b :: tail) ⟨a, 1, PyNum.int a⟩
      (by simp) (by norm_num)
    refine ⟨⟨a + (b :: tail).sum, 1 + ((b :: tail).length : Int),
      PyNum.float (((a + (b :: tail).sum : Int) : ℚ) /
        ((1 + ((b :: tail).length : Int) : Int) : ℚ))⟩,
      ?_, ?_, ?_, ?_, fun t => rfl⟩
    · show List.foldl CostData.updateStep (some none) (a :: b :: tail) = _
      rw [List.foldl_cons]
      exact hfold
    · simp
    · simp only [List.length_cons]
      push_cast
      ring
    · show (((a + (b :: tail).sum : Int) : ℚ) /
          ((1 + ((b :: tail).length : Int) : Int) : ℚ)) =
        ((a :: b :: tail).sum : ℚ) / ((a :: b :: tail).length : ℚ)
      simp only [List.sum_cons, List.length_cons]
      push_cast
      ring

/-- Witness for C1 at the concrete sequence `[3, 5]`. -/
theorem claim1_update_law_witness :
    (([3, 5] : List Int) ≠ []) ∧
    (∃ r, CostData.updateSeq [3, 5] = some (some r) ∧
      r.total_output_tokens_count = ([3, 5] : List Int).sum ∧
      r.output_tokens_sample_count = (([3, 5] : List Int).length : Int) ∧
      r.output_tokens_average.toRat =
        ((([3, 5] : List Int).sum : Int) : ℚ) / (([3, 5] : List Int).length : ℚ) ∧
      (∀ t : Int,
        CostData.update_output_tokens none t =
          some (some ⟨t, 1, PyNum.int t⟩))) :=
  ⟨by decide, claim1_update_law [3, 5] (by decide)⟩

/-- Claim C2: the record produced by a single `update_output_tokens` on the
empty state is non-empty, but saving it and loading it back yields the empty
state, because the persisted `output_tokens_average` is the JSON integer
sample while `_validate` requires a float. -/
theorem claim2_first_record_lost (t : Int) (fs : FileState) :
    CostData.update_output_tokens none t =
      some (some ⟨t, 1, PyNum.int t⟩) ∧
    CostData._load
        ((CostData.save (some ⟨t, 1, PyNum.int t⟩) true fs).2) = some none ∧
    CostData.toJson (some ⟨t, 1, PyNum.int t⟩) =
      Json.jobj [("total_output_tokens_count", Json.jint t),
                 ("output_tokens_sample_count", Json.jint 1),
                 ("output_tokens_average", Json.jint t)] ∧
    pyIsFloat (Json.jint t) = false ∧
    (some ⟨t, 1, PyNum.int t⟩ : Option CostRecord) ≠ none :=
  ⟨rfl, rfl, rfl, rfl, fun h => Option.noConfusion h⟩

/-- Claim C3 (code evaluation at the claimed scenario): from empty cache and
cost files, a run whose generation call returns the poem with
`output_tokens = 12` writes the claimed cache file, but the cost file's
`output_tokens_average` is the JSON integer `12`, not the float `12.0` the
specification (and the program's own `CostData.KEYS`) demand. -/
theorem claim3_first_run_files (est : Option Int) :
    mainRun "What is the sky?" est
        (some ("Blue above, / a silent hue. / Day\x27s canvas.", 12))
        true true FileState.absent FileState.absent =
      some ⟨[Json.jstr "Blue above, / a silent hue. / Day\x27s canvas."],
            FileState.content (Json.jobj
              [("What is the sky?",
                Json.jstr "Blue above, / a silent hue. / Day\x27s canvas.")]),
            FileState.content (Json.jobj
              [("total_output_tokens_count", Json.jint 12),
               ("output_tokens_sample_count", Json.jint 1),
               ("output_tokens_average", Json.jint 12)]),
            [RemoteCall.countTokens, RemoteCall.generate], true, false⟩ ∧
    Json.jint 12 ≠ Json.jfloat 12 :=
  ⟨rfl, fun h => Json.noConfusion h⟩

/-- Claim C7: saving any string-to-string mapping to the cache file (the
write succeeding) reports `True` and loading the file back yields the same
mapping, key for key and value for value. -/
theorem claim7_cache_round_trip (m : List (String × String)) (fs : FileState) :
    (save_answer_question_pair_data (encodeStrMap m) true fs).1 = true ∧
    load_answer_question_pair_data
        ((save_answer_question_pair_data (encodeStrMap m) true fs).2) =
      encodeStrMap m :=
  ⟨rfl, rfl⟩

/-- Claim C8: when the token-count estimation succeeds with
`input_tokens = k`, `log_anthropic_cost` returns
`k * 3 / 1000000 + a * 15 / 1000000`, where `a` is the supplied average, or
`k` itself when no average exists yet. -/
theorem claim8_cost_estimate (k : Int) (a : Option ℚ) :
    log_anthropic_cost (some k) a =
      some ((k : ℚ) * 3 / 1000000 + (a.getD (k : ℚ)) * 15 / 1000000) := by
  cases a <;>
    simp [log_anthropic_cost, get_anthropic_input_tokens_cost,
      get_anthropic_output_tokens_cost,
      CLAUDE_3_5_SONNET_PRICE_DOLLARS_INPUT_PER_MILLION_OF_TOKENS,
      CLAUDE_3_5_SONNET_PRICE_DOLLARS_OUTPUT_PER_MILLION_OF_TOKENS]

/-- Claim C4: on a cache miss where the generation call fails, the driver
prints the fixed apology and leaves both files exactly as they were (both
remote calls were issued, but nothing is written). -/
theorem claim4_failure_no_write (question : String) (est : Option Int)
    (cacheWriteOk costWriteOk : Bool) (fsCache fsCost : FileState)
    (d : Option CostRecord)
    (hcost : CostData._load fsCost = some d)
    (hmiss : pyContains (load_answer_question_pair_data fsCache) question =
      some false) :
    mainRun question est none cacheWriteOk costWriteOk fsCache fsCost =
      some ⟨[Json.jstr apology], fsCache, fsCost,
            [RemoteCall.countTokens, RemoteCall.generate], false, false⟩ := by
  simp only [mainRun, hcost, hmiss]

/-- Witness for C4 at a concrete run (empty files, question not cached). -/
theorem claim4_failure_no_write_witness :
    CostData._load FileState.absent = some none ∧
    pyContains (load_answer_question_pair_data FileState.absent) "hi" =
      some false ∧
    mainRun "hi" none none true true FileState.absent FileState.absent =
      some ⟨[Json.jstr apology], FileState.absent, FileState.absent,
            [RemoteCall.countTokens, RemoteCall.generate], false, false⟩ :=
  ⟨rfl, rfl, claim4_failure_no_write "hi" none true true FileState.absent
    FileState.absent none rfl rfl⟩

/-- Claim C5: when the question is already a key of the loaded cache
mapping, the driver prints the stored answer, issues no remote call (neither
estimation nor generation), and writes neither file, so the cached entry is
never overwritten. -/
theorem claim5_cache_hit (question : String) (est : Option Int)
    (gen : Option (String × Int)) (cacheWriteOk costWriteOk : Bool)
    (fsCache fsCost : FileState) (d : Option CostRecord)
    (kvs : List (String × Json)) (ans : Json)
    (hcost : CostData._load fsCost = some d)
    (hcache : load_answer_question_pair_data fsCache = Json.jobj kvs)
    (hhit : dictLookup kvs question = some ans) :
    mainRun question est gen cacheWriteOk costWriteOk fsCache fsCost =
      some ⟨[Json.jstr "I think I remember ...", ans], fsCache, fsCost,
            [], false, false⟩ := by
  simp only [mainRun, hcost, hcache, pyContains, pyGetItem, hhit,
    Option.isSome_some]

/-- Witness for C5 at a concrete cached question. -/
theorem claim5_cache_hit_witness :
    CostData._load FileState.absent = some none ∧
    load_answer_question_pair_data
        (FileState.content (Json.jobj [("q", Json.jstr "a")])) =
      Json.jobj [("q", Json.jstr "a")] ∧
    dictLookup [("q", Json.jstr "a")] "q" = some (Json.jstr "a") ∧
    mainRun "q" none (some ("ignored", 7)) true true
        (FileState.content (Json.jobj [("q", Json.jstr "a")]))
        FileState.absent =
      some ⟨[Json.jstr "I think I remember ...", Json.jstr "a"],
            FileState.content (Json.jobj [("q", Json.jstr "a")]),
            FileState.absent, [], false, false⟩ :=
  ⟨rfl, rfl, rfl, claim5_cache_hit "q" none (some ("ignored", 7)) true true
    (FileState.content (Json.jobj [("q", Json.jstr "a")])) FileState.absent
    none [("q", Json.jstr "a")] (Json.jstr "a") rfl rfl rfl⟩

/-- Counterexample to Claim C9 as stated: a cost file with
`output_tokens_sample_count = -1` passes `_validate` and loads, the
generation succeeds, yet the update's division by the incremented sample
count `0` raises an uncaught `ZeroDivisionError`: the cost statistics are
neither updated nor saved, and no completed run exists, even though both
writes would have succeeded. -/
theorem claim9_zero_division_counterexample :
    CostData._load (FileState.content (Json.jobj
        [("total_output_tokens_count", Json.jint 0),
         ("output_tokens_sample_count", Json.jint (-1)),
         ("output_tokens_average", Json.jfloat 1)])) =
      some (some ⟨0, -1, PyNum.float 1⟩) ∧
    CostData.update_output_tokens (some ⟨0, -1, PyNum.float 1⟩) 5 = none ∧
    mainRun "q" none (some ("a", 5)) true true
        (FileState.content (Json.jobj []))
        (FileState.content (Json.jobj
          [("total_output_tokens_count", Json.jint 0),
           ("output_tokens_sample_count", Json.jint (-1)),
           ("output_tokens_average", Json.jfloat 1)])) = none :=
  ⟨rfl, rfl, rfl⟩

/-- Claim C9, amended: on a successful generation whose cost update itself
computes (excluding only the loaded sample count `-1`, where Python raises
`ZeroDivisionError`), the two writes are independent: the printed output is
the answer text regardless of either write's outcome, the final cache file
depends only on `cacheWriteOk` (a failure leaving the prior cache file), and
the cost statistics are updated and their save attempted regardless of the
cache write's outcome, with the final cost file depending only on
`costWriteOk`. -/
theorem claim9_independent_writes (question text : String) (n : Int)
    (est : Option Int) (cacheWriteOk costWriteOk : Bool)
    (fsCache fsCost : FileState) (d : Option CostRecord)
    (newData : Option CostRecord) (kvs : List (String × Json))
    (hcost : CostData._load fsCost = some d)
    (hcache : load_answer_question_pair_data fsCache = Json.jobj kvs)
    (hmiss : dictLookup kvs question = none)
    (hupd : CostData.update_output_tokens d n = some newData) :
    mainRun question est (some (text, n)) cacheWriteOk costWriteOk fsCache
        fsCost =
      some ⟨[Json.jstr text],
            (save_answer_question_pair_data
              (Json.jobj (dictInsert kvs question (Json.jstr text)))
              cacheWriteOk fsCache).2,
            (CostData.save newData costWriteOk fsCost).2,
            [RemoteCall.countTokens, RemoteCall.generate], true, false⟩ := by
  simp only [mainRun, hcost, hcache, pyContains, pyGetItem, hmiss,
    Option.isSome_none, archive_answer_question_pair, pySetItem,
    Option.map_some', hupd, Bool.not_true, if_true]

/-- Witness for C9 at a concrete run where the cache write succeeds and the
cost write fails. -/
theorem claim9_independent_writes_witness :
    CostData._load FileState.absent = some none ∧
    load_answer_question_pair_data (FileState.content (Json.jobj [])) =
      Json.jobj [] ∧
    dictLookup [] "q" = none ∧
    CostData.update_output_tokens none 5 =
      some (some ⟨5, 1, PyNum.int 5⟩) ∧
    mainRun "q" none (some ("a", 5)) true false
        (FileState.content (Json.jobj [])) FileState.absent =
      some ⟨[Json.jstr "a"],
            (save_answer_question_pair_data
              (Json.jobj (dictInsert [] "q" (Json.jstr "a"))) true
              (FileState.content (Json.jobj []))).2,
            (CostData.save (some ⟨5, 1, PyNum.int 5⟩) false
              FileState.absent).2,
            [RemoteCall.countTokens, RemoteCall.generate], true, false⟩ :=
  ⟨rfl, rfl, rfl, rfl, claim9_independent_writes "q" "a" 5 none true false
    (FileState.content (Json.jobj [])) FileState.absent none
    (some ⟨5, 1, PyNum.int 5⟩) [] rfl rfl rfl rfl⟩

/-- Claim C6: for an absent, unreadable or malformed file both load
operations return the empty mapping/record without raising; and for the
cost record, a parsed JSON object with a missing key or a value failing the
expected `isinstance` check also loads as the empty record. -/
theorem claim6_loads_never_raise :
    (∀ fs : FileState,
        fs = FileState.absent ∨ fs = FileState.unreadable ∨
          fs = FileState.malformed →
        load_answer_question_pair_data fs = Json.jobj [] ∧
          CostData._load fs = some none)
    ∧ (∀ (kvs : List (String × Json)) (key : String) (ty : Json → Bool),
        (key, ty) ∈ CostData.KEYS →
        (dictLookup kvs key = none ∨
          ∃ v, dictLookup kvs key = some v ∧ ty v = false) →
        CostData._load (FileState.content (Json.jobj kvs)) = some none) := by
  constructor
  · rintro fs (rfl | rfl | rfl) <;> exact ⟨rfl, rfl⟩
  · intro kvs key ty hmem hbad
    have hcheck : CostData.checkKey kvs key ty = false := by
      rcases hbad with hnone | ⟨v, hv, hty⟩
      · simp [CostData.checkKey, hnone]
      · simp [CostData.checkKey, hv, hty]
    have hvalid : CostData.validKVs kvs = false := by
      cases hval : CostData.validKVs kvs
      · rfl
      · exfalso
        have hall := List.all_eq_true.mp hval (key, ty) hmem
        rw [hcheck] at hall
        exact Bool.false_ne_true hall
    simp [CostData._load, CostData._validate, hvalid]

/-- Witness for C6: a malformed file, and an object missing
`total_output_tokens_count`. -/
theorem claim6_loads_never_raise_witness :
    (FileState.malformed = FileState.absent ∨
      FileState.malformed = FileState.unreadable ∨
      FileState.malformed = FileState.malformed) ∧
    (load_answer_question_pair_data FileState.malformed = Json.jobj [] ∧
      CostData._load FileState.malformed = some none) ∧
    ("total_output_tokens_count", pyIsInt) ∈ CostData.KEYS ∧
    dictLookup [] "total_output_tokens_count" = none ∧
    CostData._load (FileState.content (Json.jobj [])) = some none :=
  ⟨Or.inr (Or.inr rfl),
   claim6_loads_never_raise.1 FileState.malformed (Or.inr (Or.inr rfl)),
   List.Mem.head _,
   rfl,
   claim6_loads_never_raise.2 [] "total_output_tokens_count" pyIsInt
     (List.Mem.head _) (Or.inl rfl)⟩

/-- Claim C10: `archive_answer_question_pair` returns `True` for every
question, answer and mapping, so after a successful generation the
"Unable to archive" branch in `main` is unreachable and the cache save is
always attempted. -/
theorem claim10_archive_always_true :
    (∀ (question answer : String) (kvs : List (String × Json)),
        archive_answer_question_pair question answer (Json.jobj kvs) =
          some (true, Json.jobj (dictInsert kvs question (Json.jstr answer))))
    ∧ (∀ (question : String) (est : Option Int) (text : String) (n : Int)
        (cacheWriteOk costWriteOk : Bool) (fsCache fsCost : FileState)
        (res : DriverResult),
        mainRun question est (some (text, n)) cacheWriteOk costWriteOk
            fsCache fsCost = some res →
        res.archiveWarned = false ∧
          (res.remoteCalls ≠ [] → res.cacheSaveAttempted = true)) := by
  constructor
  · intro question answer kvs
    rfl
  · intro question est text n cacheWriteOk costWriteOk fsCache fsCost res h
    unfold mainRun at h
    cases hc : CostData._load fsCost with
    | none => rw [hc] at h; exact Option.noConfusion h
    | some d =>
      rw [hc] at h
      cases hp : pyContains (load_answer_question_pair_data fsCache)
          question with
      | none => rw [hp] at h; exact Option.noConfusion h
      | some b =>
        rw [hp] at h
        cases b with
        | true =>
          cases hg : pyGetItem (load_answer_question_pair_data fsCache)
              question with
          | none => rw [hg] at h; exact Option.noConfusion h
          | some ans =>
            rw [hg] at h
            simp only [Option.some.injEq] at h
            subst h
            exact ⟨rfl, fun habs => absurd rfl habs⟩
        | false =>
          simp only at h
          cases ha : archive_answer_question_pair question text
              (load_answer_question_pair_data fsCache) with
          | none => rw [ha] at h; exact Option.noConfusion h
          | some pr =>
            rw [ha] at h
            obtain ⟨archived, newPairs⟩ := pr
            have harchived : archived = true := by
              unfold archive_answer_question_pair at ha
              cases hset : pySetItem (load_answer_question_pair_data fsCache)
                  question (Json.jstr text) with
              | none => rw [hset] at ha; exact Option.noConfusion ha
              | some j =>
                rw [hset] at ha
                simp only [Option.map_some', Option.some.injEq,
                  Prod.mk.injEq] at ha
                exact ha.1.symm
            subst harchived
            cases hu : CostData.update_output_tokens d n with
            | none => rw [hu] at h; exact Option.noConfusion h
            | some newData =>
              rw [hu] at h
              simp only [Option.some.injEq] at h
              subst h
              exact ⟨rfl, fun _ => rfl⟩

/-- Witness for C10 at a concrete successful run. -/
theorem claim10_archive_always_true_witness :
    archive_answer_question_pair "q" "a" (Json.jobj []) =
      some (true, Json.jobj (dictInsert [] "q" (Json.jstr "a"))) ∧
    mainRun "q" none (some ("a", 5)) true true FileState.absent
        FileState.absent =
      some ⟨[Json.jstr "a"],
            FileState.content (Json.jobj [("q", Json.jstr "a")]),
            FileState.content (Json.jobj
              [("total_output_tokens_count", Json.jint 5),
               ("output_tokens_sample_count", Json.jint 1),
               ("output_tokens_average", Json.jint 5)]),
            [RemoteCall.countTokens, RemoteCall.generate], true, false⟩ ∧
    ((⟨[Json.jstr "a"],
       FileState.content (Json.jobj [("q", Json.jstr "a")]),
       FileState.content (Json.jobj
         [("total_output_tokens_count", Json.jint 5),
          ("output_tokens_sample_count", Json.jint 1),
          ("output_tokens_average", Json.jint 5)]),
       [RemoteCall.countTokens, RemoteCall.generate], true,
       false⟩ : DriverResult).archiveWarned = false ∧
      ((⟨[Json.jstr "a"],
         FileState.content (Json.jobj [("q", Json.jstr "a")]),
         FileState.content (Json.jobj
           [("total_output_tokens_count", Json.jint 5),
            ("output_tokens_sample_count", Json.jint 1),
            ("output_tokens_average", Json.jint 5)]),
         [RemoteCall.countTokens, RemoteCall.generate], true,
         false⟩ : DriverResult).remoteCalls ≠ [] →
        (⟨[Json.jstr "a"],
          FileState.content (Json.jobj [("q", Json.jstr "a")]),
          FileState.content (Json.jobj
            [("total_output_tokens_count", Json.jint 5),
             ("output_tokens_sample_count", Json.jint 1),
             ("output_tokens_average", Json.jint 5)]),
          [RemoteCall.countTokens, RemoteCall.generate], true,
          false⟩ : DriverResult).cacheSaveAttempted = true)) :=
  ⟨claim10_archive_always_true.1 "q" "a" [],
   rfl,
   claim10_archive_always_true.2 "q" none "a" 5 true true FileState.absent
     FileState.absent _ rfl⟩
